import Mathlib

/-!
Shallow embedding of the route-geometry pipeline of `app.py`
(Cross-Country-Cycling-Road-Tour map app).

The core of the program is two functions:

* `load_route_csv` (app.py lines 13-46): read a CSV table, strip column-name
  whitespace, coerce the sequence column and the route-id column to numeric
  (the route-id column additionally cast to the nullable integer dtype
  `Int64`), coerce the latitude and longitude columns to numeric, copy them
  into `lat` / `lon` columns, and drop every row whose `lat` or `lon` is
  missing after coercion.

* `build_geojson` (app.py lines 49-74): group the rows by route id
  (pandas `groupby`: missing keys dropped, keys emitted in ascending order),
  sort each group by the sequence column (`sort_values`: missing values
  sorted last), project each row to a `[lon, lat]` pair dropping rows with a
  missing coordinate, emit a LineString feature per group that has at least
  two points, and wrap everything in a FeatureCollection.

Modelling conventions:

* A raw CSV cell is `Cell`: it holds a numeric value, holds non-numeric
  text, or is blank.  `pd.to_numeric(..., errors="coerce")` maps a cell to
  `Option ℚ` (`none` = NaN): per-cell failure, never an exception.
* Numbers are modelled as exact rationals `ℚ`.
* Column presence (after whitespace stripping) is table-level: the `Table`
  and `DF` structures carry presence flags for the sequence and route-id
  columns; the loader accesses the latitude/longitude columns
  unconditionally, so their absence is a loader error (pandas `KeyError`).
* `astype("Int64")` on a float column uses safe casting: it raises if some
  present value is not integral, and maps NaN to the missing integer `NA`.
* A source that cannot be opened at all (missing file, undecodable
  encoding) is modelled as the `none` case of `Option Table`.
* `sort_values` is modelled executably as `List.insertionSort` with a
  missing sequence comparing after every present one (`na_position="last"`,
  the pandas default).  pandas' default `kind="quicksort"` does not
  document tie order (it is not stable in general), so no theorem asserts
  the tie order of `sortRows`: every fact proved about a sorted group is
  permutation- and length-invariant, or quantifies existentially over a
  sorted permutation of the group.
* `groupby` is modelled by the sorted list of distinct non-missing keys
  (`routeKeys`) together with, for each key, the sublist of rows carrying
  that key in original order (`groupRows`).
-/

/-- A raw cell of the CSV table: a numeric value, non-numeric text, or blank. -/
inductive Cell where
  | num (q : ℚ)
  | text
  | blank
deriving DecidableEq

/-- `pd.to_numeric(cell, errors="coerce")`: a numeric cell keeps its value,
anything else becomes missing (NaN). -/
def Cell.toNum : Cell → Option ℚ
  | .num q => some q
  | .text => none
  | .blank => none

/-- One raw CSV row, giving the cells of the four logical columns
(순서 = sequence, 국토종주 자전거길 = route id, 위도 = latitude, 경도 = longitude).
A cell field is only meaningful when the corresponding column is present in
the table. -/
structure RawRow where
  seq : Cell
  route : Cell
  lat : Cell
  lon : Cell
deriving DecidableEq

/-- A parsed CSV table: presence flags for each of the four columns (after
whitespace-stripping of the header) and the list of rows. -/
structure Table where
  hasSeq : Bool
  hasRoute : Bool
  hasLat : Bool
  hasLon : Bool
  rows : List RawRow
deriving DecidableEq

/-- Ways `load_route_csv` can raise.  `dataUnavailable` models `pd.read_csv`
failing (missing file, wrong encoding, unparseable text); `keyError` models
indexing an absent latitude/longitude column (app.py lines 32-37);
`castError` models `astype("Int64")` refusing a non-integral float
(app.py lines 28-30). -/
inductive LoadError where
  | dataUnavailable
  | castError
  | keyError
deriving DecidableEq

instance {ε α : Type} [DecidableEq ε] [DecidableEq α] : DecidableEq (Except ε α) := fun x y =>
  match x, y with
  | .ok a, .ok b =>
    if h : a = b then .isTrue (by rw [h]) else .isFalse (by simp [h])
  | .error a, .error b =>
    if h : a = b then .isTrue (by rw [h]) else .isFalse (by simp [h])
  | .ok _, .error _ => .isFalse (by simp)
  | .error _, .ok _ => .isFalse (by simp)

/-- A cleaned row of the loader's output DataFrame: numeric sequence
(missing allowed), nullable-integer route id, numeric `lat` / `lon`
(present on everything the loader returns, but the type admits missing
values because `build_geojson` re-checks them). -/
structure DRow where
  seq : Option ℚ
  route : Option ℤ
  lat : Option ℚ
  lon : Option ℚ
deriving DecidableEq

/-- The loader's output DataFrame: rows plus presence flags for the two
optional columns (`lat`/`lon` always exist in the output since the loader
creates them). -/
structure DF where
  hasSeq : Bool
  hasRoute : Bool
  rows : List DRow
deriving DecidableEq

/-- Whether the route-id cell of a raw row survives
`pd.to_numeric(...).astype("Int64")`: it must be missing/non-numeric
(becoming `NA`) or an integral number.  A present non-integral number makes
`astype("Int64")` raise. -/
def routeCastOk (r : RawRow) : Bool :=
  match r.route.toNum with
  | none => true
  | some q => q.den == 1

/-- The route-id value of a raw row after `to_numeric` + `astype("Int64")`,
assuming the cast succeeded. -/
def routeCastVal (r : RawRow) : Option ℤ :=
  (r.route.toNum).bind fun q => if q.den = 1 then some q.num else none

/-- Convert one raw row to a cleaned row, given the table's column flags
(app.py lines 24-41): coerce 순서 and 국토종주 자전거길 when their columns exist,
coerce 위도/경도 and copy them into `lat`/`lon`. -/
def convRow (hasSeq hasRoute : Bool) (r : RawRow) : DRow :=
  { seq := if hasSeq then r.seq.toNum else none
    route := if hasRoute then routeCastVal r else none
    lat := r.lat.toNum
    lon := r.lon.toNum }

/-- `load_route_csv` (app.py lines 13-46).  The input is `none` when the
source cannot be opened/decoded.  Failures, in source order: `read_csv`
(line 16), `astype("Int64")` on the route column when present (lines
27-30), indexing the latitude column (line 32), indexing the longitude
column (line 35).  Then rows missing `lat` or `lon` are dropped (line 44). -/
def load_route_csv : Option Table → Except LoadError DF
  | none => .error .dataUnavailable
  | some t =>
    if t.hasRoute ∧ ¬ (t.rows.all routeCastOk) then .error .castError
    else if ¬ t.hasLat then .error .keyError
    else if ¬ t.hasLon then .error .keyError
    else .ok
      { hasSeq := t.hasSeq
        hasRoute := t.hasRoute
        rows := (t.rows.map (convRow t.hasSeq t.hasRoute)).filter
          fun d => d.lat.isSome && d.lon.isSome }

/-- Ways `build_geojson` can raise: `groupby` on an absent route-id column,
or `sort_values` on an absent sequence column (the latter only triggers
when at least one group exists, since the sort runs inside the loop over
groups). -/
inductive BuildError where
  | routeKeyError
  | seqKeyError
deriving DecidableEq

/-- The comparison used by `g.sort_values("순서")`: ascending by sequence,
missing values last (`na_position="last"`). -/
def seqLe (r s : DRow) : Bool :=
  match r.seq, s.seq with
  | some a, some b => a ≤ b
  | some _, none => true
  | none, some _ => false
  | none, none => true

/-- `seqLe` as a decidable relation, for use with `List.insertionSort`. -/
def seqLeP (r s : DRow) : Prop := seqLe r s = true

instance : DecidableRel seqLeP := fun r s => inferInstanceAs (Decidable (seqLe r s = true))

instance : IsTotal DRow seqLeP where
  total r s := by
    unfold seqLeP seqLe
    rcases r.seq with _ | a <;> rcases s.seq with _ | b <;> simp
    exact le_total a b

instance : IsTrans DRow seqLeP where
  trans r s t := by
    unfold seqLeP seqLe
    rcases r.seq with _ | a <;> rcases s.seq with _ | b <;> rcases t.seq with _ | c <;> simp
    exact le_trans

/-- `sort_values("순서")` on a group: stable sort by `seqLe`. -/
def sortRows (g : List DRow) : List DRow :=
  g.insertionSort seqLeP

/-- The distinct non-missing route ids of a row list, in ascending order:
the keys `groupby("국토종주 자전거길")` iterates (missing keys dropped, keys
sorted — both pandas defaults). -/
def routeKeys (rows : List DRow) : List ℤ :=
  ((rows.filterMap DRow.route).dedup).insertionSort fun a b => a ≤ b

/-- The group of rows carrying route id `k`, in original order. -/
def groupRows (rows : List DRow) (k : ℤ) : List DRow :=
  rows.filter fun r => r.route = some k

/-- Project a row to its `[lon, lat]` coordinate pair; `none` when either
coordinate is missing (the inner `dropna()` of app.py line 58). -/
def projPt (r : DRow) : Option (ℚ × ℚ) :=
  match r.lon, r.lat with
  | some lo, some la => some (lo, la)
  | _, _ => none

/-- One GeoJSON LineString feature: an integer route id and the ordered
`(longitude, latitude)` pairs. -/
structure Feature where
  route_id : ℤ
  coordinates : List (ℚ × ℚ)
deriving DecidableEq

/-- The GeoJSON FeatureCollection: its ordered feature list. -/
structure FeatureCollection where
  features : List Feature
deriving DecidableEq

/-- Build the feature for one group (app.py lines 57-72): sort by sequence,
project to coordinates dropping missing ones, and skip the group when fewer
than two points remain. -/
def mkFeature (k : ℤ) (g : List DRow) : Option Feature :=
  if ((sortRows g).filterMap projPt).length < 2 then none
  else some ⟨k, (sortRows g).filterMap projPt⟩

/-- The sorted, projected point list of the group with key `k`. -/
def pointsOf (rows : List DRow) (k : ℤ) : List (ℚ × ℚ) :=
  (sortRows (groupRows rows k)).filterMap projPt

/-- `build_geojson` (app.py lines 49-74).  `groupby` raises on a missing
route-id column; `sort_values` raises on a missing sequence column as soon
as one group exists; otherwise one feature per group with ≥ 2 projected
points, in ascending key order. -/
def build_geojson (df : DF) : Except BuildError FeatureCollection :=
  if ¬ df.hasRoute then .error .routeKeyError
  else if ¬ df.hasSeq ∧ routeKeys df.rows ≠ [] then .error .seqKeyError
  else .ok ⟨(routeKeys df.rows).filterMap fun k => mkFeature k (groupRows df.rows k)⟩

/-- JSON values, the target of `json.dumps(geojson_obj, ...)` (app.py line
171).  Numbers are exact rationals, matching the round-trip property "no
precision loss beyond the chosen numeric representation". -/
inductive Json where
  | jnull
  | jstr (s : String)
  | jnum (q : ℚ)
  | jarr (xs : List Json)
  | jobj (fields : List (String × Json))

/-- Look up a key in a JSON object. -/
def Json.getField : Json → String → Option Json
  | .jobj fs, k => (fs.find? fun f => f.fst = k).map Prod.snd
  | _, _ => none

/-- The JSON value of one feature, exactly the dict built at app.py lines
62-71: `type`, `properties.route_id`, `geometry.type`,
`geometry.coordinates` with each point as the array `[lon, lat]`. -/
def featureToJson (f : Feature) : Json :=
  .jobj
    [("type", .jstr "Feature"),
     ("properties", .jobj [("route_id", .jnum (f.route_id : ℚ))]),
     ("geometry", .jobj
       [("type", .jstr "LineString"),
        ("coordinates", .jarr (f.coordinates.map fun p => .jarr [.jnum p.1, .jnum p.2]))])]

/-- The JSON value of a feature collection (app.py line 74). -/
def fcToJson (fc : FeatureCollection) : Json :=
  .jobj
    [("type", .jstr "FeatureCollection"),
     ("features", .jarr (fc.features.map featureToJson))]

/-- Modelled from the spec: the repository only serializes (app.py line
171); the parse-back direction of the round-trip property follows the
spec's interchange format `{type, properties.route_id, geometry.type,
geometry.coordinates}` (§6).  Parse one coordinate pair back from JSON. -/
def jsonToPoint : Json → Option (ℚ × ℚ)
  | .jarr [.jnum a, .jnum b] => some (a, b)
  | _ => none

/-- Parse a list of coordinate pairs back from JSON, failing if any entry
fails. -/
def jsonPoints : List Json → Option (List (ℚ × ℚ))
  | [] => some []
  | j :: js => do
    let p ← jsonToPoint j
    let ps ← jsonPoints js
    pure (p :: ps)

/-- Parse one feature back from JSON. -/
def jsonToFeature (j : Json) : Option Feature := do
  let props ← j.getField "properties"
  let .jnum q ← props.getField "route_id" | none
  if q.den = 1 then
    let geom ← j.getField "geometry"
    let .jarr cs ← geom.getField "coordinates" | none
    let pts ← jsonPoints cs
    pure ⟨q.num, pts⟩
  else none

/-- Parse a list of features back from JSON, failing if any entry fails. -/
def jsonFeatures : List Json → Option (List Feature)
  | [] => some []
  | j :: js => do
    let f ← jsonToFeature j
    let fs ← jsonFeatures js
    pure (f :: fs)

/-- Parse a feature collection back from JSON. -/
def jsonToFc (j : Json) : Option FeatureCollection := do
  let .jarr fs ← j.getField "features" | none
  let feats ← jsonFeatures fs
  pure ⟨feats⟩

/-- Strict version of `seqLe`: the sequence of the first row is strictly
below that of the second (a missing value counts as strictly above every
present one and not strictly below anything). -/
def seqLt (r s : DRow) : Bool :=
  match r.seq, s.seq with
  | some a, some b => a < b
  | some _, none => true
  | none, _ => false

/-- A row list is strictly ordered by its sequence values. -/
def strictBySeq (g : List DRow) : Prop :=
  List.Pairwise (fun r s => seqLt r s = true) g

instance (g : List DRow) : Decidable (strictBySeq g) :=
  inferInstanceAs (Decidable (List.Pairwise _ g))

/-- The rational 37.1, in reduced form (so that the kernel can evaluate
comparisons on it). -/
def q37_1 : ℚ := ⟨371, 10, by decide, by decide⟩

/-- The rational 127.1, in reduced form. -/
def q127_1 : ℚ := ⟨1271, 10, by decide, by decide⟩

/-!
### General lemmas about the embedded operations
-/

theorem length_filterMap_countP {α β : Type} (f : α → Option β) (l : List α) :
    (l.filterMap f).length = l.countP fun a => (f a).isSome := by
  induction l with
  | nil => rfl
  | cons a l ih =>
    rw [List.filterMap_cons, List.countP_cons]
    cases h : f a <;> simp [h, ih]

theorem projPt_eq_some {r : DRow} {p : ℚ × ℚ} (h : projPt r = some p) :
    r.lon = some p.1 ∧ r.lat = some p.2 := by
  unfold projPt at h
  split at h
  · rename_i lo la hlo hla
    cases h
    exact ⟨hlo, hla⟩
  · cases h

theorem projPt_isSome (r : DRow) :
    (projPt r).isSome = (r.lat.isSome && r.lon.isSome) := by
  unfold projPt
  rcases r.lat with _ | a <;> rcases r.lon with _ | b <;> rfl

theorem sortRows_perm (g : List DRow) : List.Perm (sortRows g) g :=
  List.perm_insertionSort _ _

theorem sortRows_sorted (g : List DRow) : List.Pairwise seqLeP (sortRows g) :=
  List.sorted_insertionSort _ _

theorem mem_groupRows {rows : List DRow} {k : ℤ} {r : DRow} :
    r ∈ groupRows rows k ↔ r ∈ rows ∧ r.route = some k := by
  unfold groupRows
  simp [List.mem_filter]

theorem routeKeys_mem {rows : List DRow} {k : ℤ} :
    k ∈ routeKeys rows ↔ ∃ r ∈ rows, r.route = some k := by
  unfold routeKeys
  rw [List.mem_insertionSort, List.mem_dedup, List.mem_filterMap]

theorem routeKeys_nil_iff {rows : List DRow} :
    routeKeys rows = [] ↔ ∀ r ∈ rows, r.route = none := by
  unfold routeKeys
  constructor
  · intro h r hr
    cases hq : r.route with
    | none => rfl
    | some k =>
      have : k ∈ ([] : List ℤ) := by
        rw [← h, List.mem_insertionSort, List.mem_dedup, List.mem_filterMap]
        exact ⟨r, hr, hq⟩
      cases this
  · intro h
    have : rows.filterMap DRow.route = [] :=
      List.filterMap_eq_nil_iff.mpr fun r hr => h r hr
    rw [this]
    rfl

theorem routeKeys_sorted (rows : List DRow) :
    List.Sorted (· < ·) (routeKeys rows) := by
  have hs : List.Sorted (· ≤ ·) (routeKeys rows) := List.sorted_insertionSort _ _
  have hn : (routeKeys rows).Nodup :=
    ((List.perm_insertionSort _ _).nodup_iff).mpr (List.nodup_dedup _)
  exact hs.lt_of_le hn

theorem mkFeature_eq_some {k : ℤ} {g : List DRow} {f : Feature}
    (h : mkFeature k g = some f) :
    f.route_id = k ∧ f.coordinates = (sortRows g).filterMap projPt ∧
      2 ≤ f.coordinates.length := by
  unfold mkFeature at h
  split at h
  · cases h
  · rename_i hlt
    cases h
    refine ⟨rfl, rfl, ?_⟩
    show 2 ≤ ((sortRows g).filterMap projPt).length
    omega

theorem mkFeature_isSome_iff (k : ℤ) (g : List DRow) :
    (mkFeature k g).isSome = true ↔ 2 ≤ ((sortRows g).filterMap projPt).length := by
  unfold mkFeature
  split <;> rename_i hlt
  · simp only [Option.isSome_none, Bool.false_eq_true, false_iff]
    omega
  · simp only [Option.isSome_some, true_iff]
    omega

theorem build_ok_features {df : DF} {fc : FeatureCollection}
    (h : build_geojson df = .ok fc) :
    df.hasRoute = true ∧
      fc.features = (routeKeys df.rows).filterMap
        fun k => mkFeature k (groupRows df.rows k) := by
  unfold build_geojson at h
  split at h
  · cases h
  · split at h
    · cases h
    · rename_i h1 h2
      cases h
      exact ⟨by simpa using h1, rfl⟩

theorem build_ok_of_cols {df : DF} (h1 : df.hasRoute = true)
    (h2 : df.hasSeq = true ∨ routeKeys df.rows = []) :
    build_geojson df = .ok
      ⟨(routeKeys df.rows).filterMap fun k => mkFeature k (groupRows df.rows k)⟩ := by
  unfold build_geojson
  rw [if_neg (by simp [h1]), if_neg]
  rcases h2 with h2 | h2 <;> simp [h2]

theorem mem_features_iff {df : DF} {fc : FeatureCollection}
    (h : build_geojson df = .ok fc) {f : Feature} :
    f ∈ fc.features ↔
      ∃ k ∈ routeKeys df.rows, mkFeature k (groupRows df.rows k) = some f := by
  rw [(build_ok_features h).2, List.mem_filterMap]

theorem feature_point_src {df : DF} {fc : FeatureCollection}
    (h : build_geojson df = .ok fc) {f : Feature} (hf : f ∈ fc.features)
    {p : ℚ × ℚ} (hp : p ∈ f.coordinates) :
    ∃ r ∈ df.rows, r.route = some f.route_id ∧ r.lon = some p.1 ∧ r.lat = some p.2 := by
  obtain ⟨k, hk, hmk⟩ := (mem_features_iff h).1 hf
  obtain ⟨hid, hco, -⟩ := mkFeature_eq_some hmk
  rw [hco] at hp
  obtain ⟨r, hr, hpr⟩ := List.mem_filterMap.1 hp
  have hrg : r ∈ groupRows df.rows k := (sortRows_perm _).mem_iff.1 hr
  obtain ⟨hrows, hroute⟩ := mem_groupRows.1 hrg
  obtain ⟨hlo, hla⟩ := projPt_eq_some hpr
  exact ⟨r, hrows, by rw [hid]; exact hroute, hlo, hla⟩

theorem load_ok_rows {t : Table} {df : DF} (h : load_route_csv (some t) = .ok df) :
    df.hasSeq = t.hasSeq ∧ df.hasRoute = t.hasRoute ∧
      df.rows = (t.rows.map (convRow t.hasSeq t.hasRoute)).filter
        fun d => d.lat.isSome && d.lon.isSome := by
  simp only [load_route_csv] at h
  split_ifs at h
  all_goals cases h
  all_goals exact ⟨rfl, rfl, rfl⟩

theorem load_ok_length {t : Table} {df : DF} (h : load_route_csv (some t) = .ok df) :
    df.rows.length = t.rows.countP fun r => r.lat.toNum.isSome && r.lon.toNum.isSome := by
  obtain ⟨-, -, hrows⟩ := load_ok_rows h
  rw [hrows, ← List.countP_eq_length_filter, List.countP_map]
  rfl

/-!
### Claim theorems
-/

/-- **C1.** Every row of the Loader's output has present (numeric) `lat` and
`lon`; the output has at most as many rows as the input, and exactly as many
as the input rows whose latitude and longitude both coerce to numbers (so
every row with a missing or non-coercible coordinate is excluded); every
output row is the cleaned image of such an input row. -/
theorem C1_loader_valid_rows {t : Table} {df : DF}
    (h : load_route_csv (some t) = .ok df) :
    (∀ d ∈ df.rows, d.lat.isSome = true ∧ d.lon.isSome = true) ∧
    df.rows.length ≤ t.rows.length ∧
    df.rows.length = t.rows.countP (fun r => r.lat.toNum.isSome && r.lon.toNum.isSome) ∧
    (∀ d ∈ df.rows, ∃ r ∈ t.rows, d = convRow t.hasSeq t.hasRoute r ∧
      r.lat.toNum = d.lat ∧ r.lon.toNum = d.lon) := by
  obtain ⟨-, -, hrows⟩ := load_ok_rows h
  refine ⟨?_, ?_, load_ok_length h, ?_⟩
  · intro d hd
    rw [hrows] at hd
    have := (List.mem_filter.1 hd).2
    exact ⟨(Bool.and_eq_true _ _ ▸ this).1, (Bool.and_eq_true _ _ ▸ this).2⟩
  · rw [hrows]
    calc (List.filter _ (t.rows.map (convRow t.hasSeq t.hasRoute))).length
        ≤ (t.rows.map (convRow t.hasSeq t.hasRoute)).length := List.length_filter_le _ _
      _ = t.rows.length := List.length_map _ _
  · intro d hd
    rw [hrows] at hd
    obtain ⟨hmem, -⟩ := List.mem_filter.1 hd
    obtain ⟨r, hr, hconv⟩ := List.mem_map.1 hmem
    exact ⟨r, hr, hconv.symm, by rw [← hconv]; rfl, by rw [← hconv]; rfl⟩

/-- Witness for C1 at a concrete table: two rows, one with a non-numeric
latitude, which is dropped. -/
theorem C1_witness :
    (∀ d ∈ (DF.mk true true [⟨some 1, some 1, some 37, some 127⟩]).rows,
      d.lat.isSome = true ∧ d.lon.isSome = true) ∧
    (DF.mk true true [⟨some 1, some 1, some 37, some 127⟩]).rows.length ≤
      (Table.mk true true true true
        [⟨.num 1, .num 1, .num 37, .num 127⟩, ⟨.num 2, .num 1, .text, .num 127⟩]).rows.length ∧
    (DF.mk true true [⟨some 1, some 1, some 37, some 127⟩]).rows.length =
      (Table.mk true true true true
        [⟨.num 1, .num 1, .num 37, .num 127⟩, ⟨.num 2, .num 1, .text, .num 127⟩]).rows.countP
        (fun r => r.lat.toNum.isSome && r.lon.toNum.isSome) ∧
    (∀ d ∈ (DF.mk true true [⟨some 1, some 1, some 37, some 127⟩]).rows,
      ∃ r ∈ (Table.mk true true true true
        [⟨.num 1, .num 1, .num 37, .num 127⟩, ⟨.num 2, .num 1, .text, .num 127⟩]).rows,
        d = convRow true true r ∧ r.lat.toNum = d.lat ∧ r.lon.toNum = d.lon) :=
  C1_loader_valid_rows (by decide)

/-- **C4.** Rows are grouped by `route_id`; a row with a missing `route_id`
belongs to no group, and every coordinate point of every emitted feature
comes from a row whose `route_id` is present and equals the feature's. -/
theorem C4_missing_route_excluded {df : DF} {fc : FeatureCollection}
    (h : build_geojson df = .ok fc) :
    (∀ r ∈ df.rows, r.route = none → ∀ k : ℤ, r ∉ groupRows df.rows k) ∧
    (∀ f ∈ fc.features, ∀ p ∈ f.coordinates,
      ∃ r ∈ df.rows, r.route = some f.route_id ∧ r.lon = some p.1 ∧ r.lat = some p.2) := by
  refine ⟨?_, fun f hf p hp => feature_point_src h hf hp⟩
  intro r _ hnone k hk
  have := (mem_groupRows.1 hk).2
  rw [hnone] at this
  cases this

/-- Witness for C4: one grouped route of two rows plus one row with a
missing route id; the missing-route row is in no group. -/
theorem C4_witness :
    (∀ r ∈ (DF.mk true true [⟨some 1, some 1, some 37, some 127⟩,
        ⟨some 2, some 1, some 38, some 128⟩, ⟨some 3, none, some 39, some 129⟩]).rows,
      r.route = none → ∀ k : ℤ,
        r ∉ groupRows (DF.mk true true [⟨some 1, some 1, some 37, some 127⟩,
          ⟨some 2, some 1, some 38, some 128⟩, ⟨some 3, none, some 39, some 129⟩]).rows k) ∧
    (∀ f ∈ (FeatureCollection.mk [⟨1, [(127, 37), (128, 38)]⟩]).features,
      ∀ p ∈ f.coordinates,
        ∃ r ∈ (DF.mk true true [⟨some 1, some 1, some 37, some 127⟩,
          ⟨some 2, some 1, some 38, some 128⟩, ⟨some 3, none, some 39, some 129⟩]).rows,
          r.route = some f.route_id ∧ r.lon = some p.1 ∧ r.lat = some p.2) :=
  C4_missing_route_excluded (by decide)

/-- **C6 counterexample.** The claim says the Geometry Builder raises no
error for any input and that an empty row collection yields an empty
Feature Collection; but on an empty DataFrame whose route-id column is
absent (which the Loader produces when the source lacks that column),
`groupby` raises a `KeyError` instead. -/
theorem C6_counterexample :
    build_geojson ⟨true, false, []⟩ = .error .routeKeyError := by decide

/-- **C6 amended.** If the input has the route-id column, and has the
sequence column or no row with a present route id, the Geometry Builder
returns a Feature Collection (no error); an empty row collection yields an
empty feature list. -/
theorem C6_amended_no_error {df : DF} (h1 : df.hasRoute = true)
    (h2 : df.hasSeq = true ∨ ∀ r ∈ df.rows, r.route = none) :
    ∃ fc, build_geojson df = .ok fc ∧ (df.rows = [] → fc.features = []) := by
  have h2a : df.hasSeq = true ∨ routeKeys df.rows = [] :=
    h2.imp id routeKeys_nil_iff.mpr
  refine ⟨_, build_ok_of_cols h1 h2a, ?_⟩
  intro hnil
  show (routeKeys df.rows).filterMap _ = []
  rw [hnil]
  rfl

/-- Witness for the amended C6 at the empty DataFrame with both columns. -/
theorem C6_witness :
    ∃ fc, build_geojson ⟨true, true, []⟩ = .ok fc ∧
      ((DF.mk true true []).rows = [] → fc.features = []) :=
  C6_amended_no_error rfl (Or.inl rfl)

/-- **C7.** Scenario A: the three rows `(seq 2, route 1, 37.1, 127.1)`,
`(seq 1, route 1, 37.0, 127.0)`, `(seq 1, route 2, 36.0, 126.0)` produce
exactly one feature — route 1 with coordinates
`[[127.0, 37.0], [127.1, 37.1]]` — and route 2 is dropped with only one
point. -/
theorem C7_scenarioA :
    build_geojson ⟨true, true,
      [⟨some 2, some 1, some q37_1, some q127_1⟩,
       ⟨some 1, some 1, some 37, some 127⟩,
       ⟨some 1, some 2, some 36, some 126⟩]⟩ =
      .ok ⟨[⟨1, [(127, 37), (q127_1, q37_1)]⟩]⟩ ∧
    q127_1 = 1271 / 10 ∧ q37_1 = 371 / 10 := by
  refine ⟨by decide, ?_, ?_⟩
  · unfold q127_1
    rw [Rat.mk'_eq_divInt, Rat.divInt_eq_div]
    norm_num
  · unfold q37_1
    rw [Rat.mk'_eq_divInt, Rat.divInt_eq_div]
    norm_num

/-- **C10 counterexample.** The claim says the Geometry Builder raises on
every input table lacking the sequence column; but when no group is formed
(here: no rows at all) the per-group sort never runs, so the Builder
succeeds even though the column is absent. -/
theorem C10_counterexample :
    load_route_csv (some ⟨false, true, true, true, []⟩) = .ok ⟨false, true, []⟩ ∧
    build_geojson ⟨false, true, []⟩ = .ok ⟨[]⟩ := by
  exact ⟨by decide, by decide⟩

/-- **C10 amended.** The Loader succeeds on a table lacking the sequence
column (that column is optional to it); the Geometry Builder then raises
the sequence `KeyError` iff at least one loaded row has a present route id
(the sort step indexes the column inside the per-group loop, so it only
runs when a group exists). -/
theorem C10_amended_seq_keyerror {t : Table} {df : DF} (hseq : t.hasSeq = false)
    (hroute : t.hasRoute = true) (h : load_route_csv (some t) = .ok df) :
    build_geojson df = .error .seqKeyError ↔ ∃ r ∈ df.rows, r.route ≠ none := by
  obtain ⟨hs, hr, -⟩ := load_ok_rows h
  rw [hseq] at hs
  rw [hroute] at hr
  constructor
  · intro hb
    by_contra hex
    push_neg at hex
    have hk : routeKeys df.rows = [] :=
      routeKeys_nil_iff.mpr fun r hrm => hex r hrm
    have := build_ok_of_cols hr (Or.inr hk)
    rw [this] at hb
    cases hb
  · rintro ⟨r, hrm, hrn⟩
    unfold build_geojson
    rw [if_neg (by simp [hr]), if_pos]
    refine ⟨by simp [hs], ?_⟩
    intro hk
    exact hrn ((routeKeys_nil_iff.mp hk) r hrm)

/-- Witness for the amended C10: a one-row table without the sequence
column loads fine and then makes the Builder raise at the sort step. -/
theorem C10_witness :
    build_geojson ⟨false, true, [⟨none, some 3, some 1, some 2⟩]⟩ =
        .error .seqKeyError ↔
      ∃ r ∈ (DF.mk false true [⟨none, some 3, some 1, some 2⟩]).rows,
        r.route ≠ none :=
  @C10_amended_seq_keyerror ⟨false, true, true, true,
    [⟨.blank, .num 3, .num 1, .num 2⟩]⟩ ⟨false, true, [⟨none, some 3, some 1, some 2⟩]⟩
    rfl rfl (by decide)

/-- **C2 counterexample.** The claim requires the emitted feature's points
to be *strictly* ordered by the rows' sequence values.  Two valid rows of
one route with equal sequence values still produce a feature with two
points (first and second conjuncts), every row of that group has sequence
value 1 (third conjunct), and no ordering of two or more rows whose
sequence values are all equal is strictly ordered by sequence (fourth
conjunct) — so whatever tie order `sort_values` produces, the claimed
strict ordering fails at this input. -/
theorem C2_counterexample :
    (∃ fc, build_geojson ⟨true, true,
        [⟨some 1, some 1, some 37, some 127⟩, ⟨some 1, some 1, some 38, some 128⟩]⟩ =
        .ok fc ∧ fc.features.length = 1 ∧ ∀ f ∈ fc.features, f.coordinates.length = 2) ∧
    (∀ r ∈ groupRows
        [⟨some 1, some 1, some 37, some 127⟩, ⟨some 1, some 1, some 38, some 128⟩] 1,
      r.seq = some 1) ∧
    (∀ g : List DRow, (∀ r ∈ g, r.seq = some 1) → 2 ≤ g.length → ¬ strictBySeq g) := by
  refine ⟨⟨⟨[⟨1, [(127, 37), (128, 38)]⟩]⟩, by decide, by decide, by decide⟩,
    by decide, ?_⟩
  intro g hall hlen hs
  match g, hlen with
  | a :: b :: t, _ =>
    have hab : seqLt a b = true := (List.pairwise_cons.1 hs).1 b (List.mem_cons_self b t)
    have ha : a.seq = some 1 := hall a (List.mem_cons_self a _)
    have hb : b.seq = some 1 := hall b (List.mem_cons.2 (Or.inr (List.mem_cons_self b t)))
    rw [seqLt, ha, hb] at hab
    simp at hab

/-- **C2 amended.** For every emitted feature there is a permutation of the
group's rows that is non-decreasingly ordered by sequence with
missing-sequence rows last, and whose in-order coordinate projections are
exactly the feature's points; the point count equals the group's valid
(present lat and lon) row count.  The order among rows with equal or
missing sequence values is left unspecified (pandas' default `quicksort`
does not document tie order), and the point order is non-decreasing, not
strict, in the sequence values. -/
theorem C2_amended_group_order {df : DF} {fc : FeatureCollection}
    (h : build_geojson df = .ok fc) {f : Feature} (hf : f ∈ fc.features) :
    (∃ g : List DRow,
      List.Perm g (groupRows df.rows f.route_id) ∧
      List.Pairwise seqLeP g ∧
      f.coordinates = g.filterMap projPt) ∧
    f.coordinates.length =
      (groupRows df.rows f.route_id).countP (fun r => r.lat.isSome && r.lon.isSome) := by
  obtain ⟨k, hk, hmk⟩ := (mem_features_iff h).1 hf
  obtain ⟨hid, hco, -⟩ := mkFeature_eq_some hmk
  subst hid
  refine ⟨⟨sortRows (groupRows df.rows f.route_id),
    sortRows_perm _, sortRows_sorted _, hco⟩, ?_⟩
  rw [hco, length_filterMap_countP,
    (sortRows_perm (groupRows df.rows f.route_id)).countP_eq]
  exact List.countP_congr fun r _ => by rw [projPt_isSome r]

/-- Witness for the amended C2 at a route whose rows arrive out of
sequence order. -/
theorem C2_witness :
    (∃ g : List DRow,
      List.Perm g (groupRows (DF.mk true true
        [⟨some 2, some 1, some 38, some 128⟩, ⟨some 1, some 1, some 37, some 127⟩]).rows
        (Feature.mk 1 [(127, 37), (128, 38)]).route_id) ∧
      List.Pairwise seqLeP g ∧
      (Feature.mk 1 [(127, 37), (128, 38)]).coordinates = g.filterMap projPt) ∧
    (Feature.mk 1 [(127, 37), (128, 38)]).coordinates.length =
      (groupRows (DF.mk true true
        [⟨some 2, some 1, some 38, some 128⟩, ⟨some 1, some 1, some 37, some 127⟩]).rows
        (Feature.mk 1 [(127, 37), (128, 38)]).route_id).countP
        (fun r => r.lat.isSome && r.lon.isSome) :=
  @C2_amended_group_order
    ⟨true, true, [⟨some 2, some 1, some 38, some 128⟩, ⟨some 1, some 1, some 37, some 127⟩]⟩
    ⟨[⟨1, [(127, 37), (128, 38)]⟩]⟩ (by decide)
    ⟨1, [(127, 37), (128, 38)]⟩ (by decide)

/-- **C3.** A route key yields a feature iff its sorted, projected point
list has at least two entries; the feature count equals the number of
qualifying keys (not the total number of groups); every emitted feature has
at least two points, and every point is the `(longitude, latitude)` pair of
some input row — the first component is a row's `lon`, the second its
`lat`, never the other way around. -/
theorem C3_feature_invariants {df : DF} {fc : FeatureCollection}
    (h : build_geojson df = .ok fc) :
    (∀ k ∈ routeKeys df.rows,
      ((∃ f ∈ fc.features, f.route_id = k) ↔ 2 ≤ (pointsOf df.rows k).length)) ∧
    fc.features.length =
      (routeKeys df.rows).countP (fun k => 2 ≤ (pointsOf df.rows k).length) ∧
    (∀ f ∈ fc.features, 2 ≤ f.coordinates.length) ∧
    (∀ f ∈ fc.features, ∀ p ∈ f.coordinates,
      ∃ r ∈ df.rows, r.lon = some p.1 ∧ r.lat = some p.2) := by
  refine ⟨?_, ?_, ?_, ?_⟩
  · intro k hk
    constructor
    · rintro ⟨f, hf, hfk⟩
      obtain ⟨k', hk', hmk⟩ := (mem_features_iff h).1 hf
      obtain ⟨hid, hco, hlen⟩ := mkFeature_eq_some hmk
      rw [hfk] at hid
      subst hid
      rw [hco] at hlen
      exact hlen
    · intro h2
      cases hmk : mkFeature k (groupRows df.rows k) with
      | none =>
        have := mkFeature_isSome_iff k (groupRows df.rows k)
        rw [hmk] at this
        simp only [Option.isSome_none, Bool.false_eq_true, false_iff] at this
        exact absurd h2 this
      | some f =>
        exact ⟨f, (mem_features_iff h).2 ⟨k, hk, hmk⟩, (mkFeature_eq_some hmk).1⟩
  · rw [(build_ok_features h).2, length_filterMap_countP]
    refine List.countP_congr fun k _ => ?_
    constructor
    · intro hs
      rw [decide_eq_true_iff]
      exact (mkFeature_isSome_iff k (groupRows df.rows k)).1 hs
    · intro hd
      rw [decide_eq_true_iff] at hd
      exact (mkFeature_isSome_iff k (groupRows df.rows k)).2 hd
  · intro f hf
    obtain ⟨k, hk, hmk⟩ := (mem_features_iff h).1 hf
    exact (mkFeature_eq_some hmk).2.2
  · intro f hf p hp
    obtain ⟨r, hr, -, hlo, hla⟩ := feature_point_src h hf hp
    exact ⟨r, hr, hlo, hla⟩

/-- Witness for C3: two routes, one with two valid rows (kept) and one with
a single row (dropped). -/
theorem C3_witness :
    (∀ k ∈ routeKeys (DF.mk true true [⟨some 1, some 1, some 37, some 127⟩,
        ⟨some 2, some 1, some 38, some 128⟩, ⟨some 1, some 2, some 36, some 126⟩]).rows,
      ((∃ f ∈ (FeatureCollection.mk [⟨1, [(127, 37), (128, 38)]⟩]).features,
          f.route_id = k) ↔
        2 ≤ (pointsOf (DF.mk true true [⟨some 1, some 1, some 37, some 127⟩,
          ⟨some 2, some 1, some 38, some 128⟩,
          ⟨some 1, some 2, some 36, some 126⟩]).rows k).length)) ∧
    (FeatureCollection.mk [⟨1, [(127, 37), (128, 38)]⟩]).features.length =
      (routeKeys (DF.mk true true [⟨some 1, some 1, some 37, some 127⟩,
        ⟨some 2, some 1, some 38, some 128⟩,
        ⟨some 1, some 2, some 36, some 126⟩]).rows).countP
        (fun k => 2 ≤ (pointsOf (DF.mk true true [⟨some 1, some 1, some 37, some 127⟩,
          ⟨some 2, some 1, some 38, some 128⟩,
          ⟨some 1, some 2, some 36, some 126⟩]).rows k).length) ∧
    (∀ f ∈ (FeatureCollection.mk [⟨1, [(127, 37), (128, 38)]⟩]).features,
      2 ≤ f.coordinates.length) ∧
    (∀ f ∈ (FeatureCollection.mk [⟨1, [(127, 37), (128, 38)]⟩]).features,
      ∀ p ∈ f.coordinates,
        ∃ r ∈ (DF.mk true true [⟨some 1, some 1, some 37, some 127⟩,
          ⟨some 2, some 1, some 38, some 128⟩, ⟨some 1, some 2, some 36, some 126⟩]).rows,
          r.lon = some p.1 ∧ r.lat = some p.2) :=
  C3_feature_invariants (by decide)

theorem filterMap_mkFeature_pairwise (rows : List DRow) {ks : List ℤ}
    (hks : List.Pairwise (· < ·) ks) :
    List.Pairwise (fun f g : Feature => f.route_id < g.route_id)
      (ks.filterMap fun k => mkFeature k (groupRows rows k)) := by
  induction ks with
  | nil => simp
  | cons a l ih =>
    rw [List.pairwise_cons] at hks
    rw [List.filterMap_cons]
    cases hFa : mkFeature a (groupRows rows a) with
    | none => exact ih hks.2
    | some fa =>
      rw [List.pairwise_cons]
      refine ⟨?_, ih hks.2⟩
      intro g hg
      obtain ⟨b, hb, hFb⟩ := List.mem_filterMap.1 hg
      rw [(mkFeature_eq_some hFa).1, (mkFeature_eq_some hFb).1]
      exact hks.1 b hb

/-- **C9.** The features of the emitted collection are in strictly
ascending `route_id` order: `groupby` sorts the group keys, so the output
order is deterministic and `route_id`-sorted. -/
theorem C9_features_sorted {df : DF} {fc : FeatureCollection}
    (h : build_geojson df = .ok fc) :
    List.Sorted (· < ·) (fc.features.map Feature.route_id) := by
  rw [(build_ok_features h).2]
  exact List.pairwise_map.mpr (filterMap_mkFeature_pairwise df.rows (routeKeys_sorted df.rows))

/-- Witness for C9: rows arriving with route 2 before route 1 still come
out as features sorted by route id. -/
theorem C9_witness :
    List.Sorted (· < ·) ((FeatureCollection.mk
      [⟨1, [(127, 37), (128, 38)]⟩, ⟨2, [(126, 36), (129, 39)]⟩]).features.map
        Feature.route_id) :=
  @C9_features_sorted ⟨true, true,
    [⟨some 1, some 2, some 36, some 126⟩, ⟨some 1, some 1, some 37, some 127⟩,
     ⟨some 2, some 1, some 38, some 128⟩, ⟨some 2, some 2, some 39, some 129⟩]⟩
    ⟨[⟨1, [(127, 37), (128, 38)]⟩, ⟨2, [(126, 36), (129, 39)]⟩]⟩
    (by decide)

/-- **C5 counterexample.** The claim says the Loader fails exactly when the
source cannot be opened or contains *none* of the required fields; but a
table that has the sequence, route-id and longitude columns while lacking
only the latitude column (so it contains several required fields) still
makes the Loader raise (`KeyError` on the unconditional latitude access). -/
theorem C5_counterexample :
    load_route_csv (some ⟨true, true, false, true, []⟩) = .error .keyError ∧
    (Table.mk true true false true []).hasSeq = true ∧
    (Table.mk true true false true []).hasRoute = true ∧
    (Table.mk true true false true []).hasLon = true := by
  exact ⟨by decide, rfl, rfl, rfl⟩

/-- **C5 amended.** The Loader fails exactly when the source cannot be
opened, or the latitude or longitude column is missing, or the route-id
column is present with some numeric non-integral value (the `Int64` cast
raises); `to_numeric` coercion failures are per-field and never abort —
rows whose latitude or longitude does not coerce are silently dropped, as
the output row count equals the count of input rows with both coordinates
coercible. -/
theorem C5_amended_load_error :
    ((∃ df, load_route_csv none = .ok df) ↔ False) ∧
    (∀ t : Table,
      (∃ df, load_route_csv (some t) = .ok df) ↔
        (t.hasLat = true ∧ t.hasLon = true ∧
          (t.hasRoute = true → t.rows.all routeCastOk = true))) ∧
    (∀ (t : Table) (df : DF), load_route_csv (some t) = .ok df →
      df.rows.length = t.rows.countP fun r => r.lat.toNum.isSome && r.lon.toNum.isSome) := by
  refine ⟨by simp [load_route_csv], ?_, fun t df h => load_ok_length h⟩
  intro t
  constructor
  · rintro ⟨df, hdf⟩
    simp only [load_route_csv] at hdf
    split_ifs at hdf with h1 h2 h3
    exact ⟨by tauto, by tauto, by tauto⟩
  · rintro ⟨hlat, hlon, hroute⟩
    refine ⟨⟨t.hasSeq, t.hasRoute, (t.rows.map (convRow t.hasSeq t.hasRoute)).filter
      fun d => d.lat.isSome && d.lon.isSome⟩, ?_⟩
    simp only [load_route_csv]
    rw [if_neg (by tauto), if_neg (by simp [hlat]), if_neg (by simp [hlon])]

/-- Witness for the amended C5: a table with all four columns, one clean
row and one row with a non-numeric latitude, loads successfully and keeps
exactly the coercible row. -/
theorem C5_witness :
    (∃ df, load_route_csv (some (Table.mk true true true true
      [⟨.num 1, .num 1, .num 37, .num 127⟩, ⟨.num 2, .num 1, .text, .num 127⟩])) =
        .ok df) ∧
    (DF.mk true true [⟨some 1, some 1, some 37, some 127⟩]).rows.length =
      (Table.mk true true true true
        [⟨.num 1, .num 1, .num 37, .num 127⟩, ⟨.num 2, .num 1, .text, .num 127⟩]).rows.countP
        (fun r => r.lat.toNum.isSome && r.lon.toNum.isSome) :=
  ⟨(C5_amended_load_error.2.1 _).mpr (by decide),
   C5_amended_load_error.2.2 _ _ (by decide)⟩

theorem jsonPoints_map (ps : List (ℚ × ℚ)) :
    jsonPoints (ps.map fun p => Json.jarr [Json.jnum p.1, Json.jnum p.2]) = some ps := by
  induction ps with
  | nil => rfl
  | cons p ps ih => simp [jsonPoints, jsonToPoint, ih]

theorem jsonToFeature_featureToJson (f : Feature) :
    jsonToFeature (featureToJson f) = some f := by
  have h1 : (featureToJson f).getField "properties" =
      some (.jobj [("route_id", .jnum (f.route_id : ℚ))]) := rfl
  have h2 : (Json.jobj [("route_id", Json.jnum (f.route_id : ℚ))]).getField "route_id" =
      some (.jnum (f.route_id : ℚ)) := rfl
  have h3 : (featureToJson f).getField "geometry" = some (.jobj
      [("type", .jstr "LineString"),
       ("coordinates", .jarr (f.coordinates.map fun p => .jarr [.jnum p.1, .jnum p.2]))]) := rfl
  have h4 : (Json.jobj
      [("type", Json.jstr "LineString"),
       ("coordinates", Json.jarr (f.coordinates.map
         fun p => Json.jarr [Json.jnum p.1, Json.jnum p.2]))]).getField "coordinates" =
      some (.jarr (f.coordinates.map fun p => .jarr [.jnum p.1, .jnum p.2])) := rfl
  unfold jsonToFeature
  rw [h1, h3]
  simp [h2, h4, Rat.den_intCast, Rat.num_intCast, jsonPoints_map f.coordinates]

theorem jsonFeatures_map (fs : List Feature) :
    jsonFeatures (fs.map featureToJson) = some fs := by
  induction fs with
  | nil => rfl
  | cons f fs ih => simp [jsonFeatures, jsonToFeature_featureToJson, ih]

/-- **C8.** Round trip: serializing a Feature Collection to the JSON
interchange structure and parsing it back reproduces the identical
`route_id` values and coordinate sequences, in order (numbers are exact
rationals in the model, so there is no loss beyond the chosen numeric
representation). -/
theorem C8_roundtrip (fc : FeatureCollection) :
    jsonToFc (fcToJson fc) = some fc := by
  have h1 : (fcToJson fc).getField "features" =
      some (.jarr (fc.features.map featureToJson)) := rfl
  unfold jsonToFc
  rw [h1]
  simp [jsonFeatures_map fc.features]
